import Mathlib

/-!
Verification of the serial-port session manager (src-tauri/src/serial_mgr).

The development shallowly embeds the per-port session task
(`serial_mgr/port_task.rs::spawn_serial_task`), the three relay tasks set up in
`serial_mgr/open_port.rs::setup_port_task` (read-event relay, modem-status
relay, write-notifier relay), the command handlers `open_port`, `close_port`
and `write_port`, the parameter parsers in `serial/`, and the audit-log
interface of `serial_mgr/storage/mod.rs`.

Hardware I/O and channel scheduling are modelled by feeding the loop an
explicit list of inputs: each `LoopInput` is one resolution of the
`tokio::select!` in the session task (a read completion, a dequeued command
together with the hardware's response to the write, or a poll-timer tick).
-/

namespace SerialMgr

/-- `ModemStatus` from port_task.rs: the four polled modem control lines. -/
structure ModemStatus where
  cts : Bool
  dsr : Bool
  cd : Bool
  ring : Bool
deriving DecidableEq, Repr

/-- `WritePortMessage` from port_task.rs: payload of a `Write` command.
Bytes are modelled as natural numbers. -/
structure WritePortMessage where
  message_id : String
  data : List Nat
deriving DecidableEq, Repr

/-- `WriteCmd` from port_task.rs: the command union carried on the
per-port command channel. -/
inductive WriteCmd where
  | message (m : WritePortMessage)
  | rts (v : Bool)
  | dtr (v : Bool)
  | close
deriving DecidableEq, Repr

/-- `PortReadEvent` (events/message_read.rs) without the wall-clock
timestamp, which is external input. -/
structure PortReadEvent where
  port_name : String
  data : List Nat
deriving DecidableEq, Repr

/-- `SerialEvent` from port_task.rs: what the session task sends on its
event channel.  I/O errors are modelled by their message string. -/
inductive SerialEvent where
  | message (e : PortReadEvent)
  | error (msg : String)
deriving DecidableEq, Repr

/-- One resolution of the `tokio::select!` in `spawn_serial_task`:
either `port.read` completed (with bytes, `[]` meaning `Ok(0)`, or an
I/O error), or a command was dequeued (`none` = channel closed; the
`Bool` next to the command says whether an ack sender was attached;
`write_ok` is the hardware's response to `port.write_all`, relevant only
for `WriteCmd.message`), or the status poll timer ticked, polling the
given line levels. -/
inductive LoopInput where
  | read (res : Except String (List Nat))
  | cmd (entry : Option (WriteCmd × Bool)) (write_ok : Bool)
  | tick (polled : ModemStatus)
deriving Repr

/-- Observable history of one session task: events sent on `event_tx`,
payloads passed to `port.write_all` (the wire), commands serviced (with
their ack flags; an ack is sent exactly for the serviced commands whose
flag is true), lengths sent on `write_notifier_tx`, snapshots sent on the
status watch channel, and whether the loop has exited (`break`). -/
structure TaskState where
  events : List SerialEvent
  wire : List (List Nat)
  serviced : List (WriteCmd × Bool)
  notifies : List Nat
  statusSends : List ModemStatus
  done : Bool
deriving DecidableEq, Repr

/-- The initial state of a freshly spawned session task. -/
def initTaskState : TaskState :=
  { events := [], wire := [], serviced := [], notifies := [],
    statusSends := [], done := false }

/-- One iteration of the loop in `spawn_serial_task` (port_task.rs).
Mirrors the three `select!` arms:
read `Ok(0)` breaks; read `Ok(n)` sends a `Data` event with exactly the
bytes read; read `Err` sends an `Error` event and breaks; a `Message`
command does `write_all`, sends the ack, sends the length notification,
and breaks iff the write failed; `Rts`/`Dtr` apply best-effort and ack;
`Close` acks and breaks; a closed channel breaks; a timer tick sends the
polled snapshot on the watch channel unconditionally. -/
def taskStep (port_name : String) (s : TaskState) (i : LoopInput) : TaskState :=
  if s.done then s else
  match i with
  | LoopInput.read (Except.ok bytes) =>
    match bytes with
    | [] => { s with done := true }
    | bs => { s with events := s.events ++ [SerialEvent.message ⟨port_name, bs⟩] }
  | LoopInput.read (Except.error e) =>
    { s with events := s.events ++ [SerialEvent.error e], done := true }
  | LoopInput.cmd none _ => { s with done := true }
  | LoopInput.cmd (some (WriteCmd.message m, ack)) write_ok =>
    { s with wire := s.wire ++ [m.data],
             serviced := s.serviced ++ [(WriteCmd.message m, ack)],
             notifies := s.notifies ++ [m.data.length],
             done := !write_ok }
  | LoopInput.cmd (some (WriteCmd.rts v, ack)) _ =>
    { s with serviced := s.serviced ++ [(WriteCmd.rts v, ack)] }
  | LoopInput.cmd (some (WriteCmd.dtr v, ack)) _ =>
    { s with serviced := s.serviced ++ [(WriteCmd.dtr v, ack)] }
  | LoopInput.cmd (some (WriteCmd.close, ack)) _ =>
    { s with serviced := s.serviced ++ [(WriteCmd.close, ack)], done := true }
  | LoopInput.tick polled =>
    { s with statusSends := s.statusSends ++ [polled] }

/-- Run the session-task loop over a list of select resolutions. -/
def runTask (port_name : String) (s : TaskState) : List LoopInput → TaskState
  | [] => s
  | i :: rest => runTask port_name (taskStep port_name s i) rest

/-- The loop input corresponding to a `write_port` call whose hardware
write succeeds: a `Message` command with an ack sender attached. -/
def msgInput (m : WritePortMessage) : LoopInput :=
  LoopInput.cmd (some (WriteCmd.message m, true)) true

theorem taskStep_done (p : String) (s : TaskState) (i : LoopInput)
    (h : s.done = true) : taskStep p s i = s := by
  simp [taskStep, h]

theorem runTask_done (p : String) (s : TaskState) (l : List LoopInput)
    (h : s.done = true) : runTask p s l = s := by
  induction l with
  | nil => rfl
  | cons i rest ih => simp [runTask, taskStep_done p s i h, ih]

/-- A row of the `logs` table (storage/entity.rs `Model`), without the
store-assigned `id` and wall-clock `timestamp` (a record's position in the
store list plays the role of the monotonic id). -/
structure AuditRecord where
  device_fingerprint : String
  session_id : String
  vid : Option String
  pid : Option String
  serial_number : Option String
  port_name : String
  direction : String
  data : List Nat
deriving DecidableEq, Repr

/-- A `app.emit` notification, by event name (events/mod.rs) and payload. -/
inductive AppEvent where
  | port_opened (port_name : String)
  | port_read (e : PortReadEvent)
  | port_error (message : String)
  | port_closed (port_name : String) (reason : String)
deriving DecidableEq, Repr

/-- Whether a notification is a `port_closed` notification. -/
def AppEvent.isPortClosed : AppEvent → Bool
  | AppEvent.port_closed _ _ => true
  | _ => false

/-- The bytes of a string, as produced by `String::into_bytes` (codepoints;
all characters involved here are ASCII). -/
def charBytes (s : String) : List Nat := s.toList.map Char.toNat

/-- The RX audit row inserted by the read relay for an inbound payload
(open_port.rs lines 54-67: `storage.insert(fingerprint, session_id, None,
None, None, port_name, "RX", data)`). -/
def rxRecord (fp sid pname : String) (d : List Nat) : AuditRecord :=
  { device_fingerprint := fp, session_id := sid, vid := none, pid := none,
    serial_number := none, port_name := pname, direction := "RX", data := d }

/-- The TX audit row inserted by the write-notifier relay for a write of
`len` bytes (open_port.rs lines 159-173: the payload is the placeholder
text `<len bytes written>`, not the written bytes). -/
def txRecord (fp sid pname : String) (len : Nat) : AuditRecord :=
  { device_fingerprint := fp, session_id := sid, vid := none, pid := none,
    serial_number := none, port_name := pname, direction := "TX",
    data := charBytes ("<" ++ toString len ++ " bytes written>") }

/-- Observable state of the read-event relay spawned in `setup_port_task`
(open_port.rs lines 43-95): notifications emitted, audit rows inserted,
and the port's `bytes_read` counter. -/
structure ReadRelayState where
  emitted : List AppEvent
  audits : List AuditRecord
  bytesRead : Nat
deriving DecidableEq, Repr

/-- Initial read-relay state for a session on a port whose counter starts
at zero. -/
def initReadRelay : ReadRelayState :=
  { emitted := [], audits := [], bytesRead := 0 }

/-- One iteration of the read-event relay loop: a `Message` event is
emitted as `port_read`, logged as an RX audit row, and bumps `bytes_read`
by the payload length; an `Error` event is emitted as `port_error` only
(no audit row, no counter change, no `port_closed`). -/
def readRelayStep (fp sid pname : String) (st : ReadRelayState)
    (ev : SerialEvent) : ReadRelayState :=
  match ev with
  | SerialEvent.message m =>
    { emitted := st.emitted ++ [AppEvent.port_read m],
      audits := st.audits ++ [rxRecord fp sid pname m.data],
      bytesRead := st.bytesRead + m.data.length }
  | SerialEvent.error e =>
    { st with emitted := st.emitted ++ [AppEvent.port_error e] }

/-- Run the read-event relay over the stream of session events. -/
def readRelayRun (fp sid pname : String) (st : ReadRelayState) :
    List SerialEvent → ReadRelayState
  | [] => st
  | ev :: rest => readRelayRun fp sid pname (readRelayStep fp sid pname st ev) rest

/-- The payloads of the `Data` events within an event stream, in order. -/
def dataPayloads (events : List SerialEvent) : List (List Nat) :=
  events.filterMap (fun ev =>
    match ev with
    | SerialEvent.message m => some m.data
    | SerialEvent.error _ => none)

/-- Observable state of the write-notifier relay spawned in
`setup_port_task` (open_port.rs lines 143-174): the port's `bytes_write`
counter and the TX audit rows inserted. -/
structure WriteRelayState where
  bytesWrite : Nat
  audits : List AuditRecord
deriving DecidableEq, Repr

/-- Initial write-relay state. -/
def initWriteRelay : WriteRelayState := { bytesWrite := 0, audits := [] }

/-- One iteration of the write-notifier relay loop: each notified length
bumps `bytes_write` and inserts one TX audit row whose payload is the
placeholder text. -/
def writeRelayStep (fp sid pname : String) (st : WriteRelayState)
    (len : Nat) : WriteRelayState :=
  { bytesWrite := st.bytesWrite + len,
    audits := st.audits ++ [txRecord fp sid pname len] }

/-- Run the write-notifier relay over the notified lengths. -/
def writeRelayRun (fp sid pname : String) (st : WriteRelayState) :
    List Nat → WriteRelayState
  | [] => st
  | len :: rest => writeRelayRun fp sid pname (writeRelayStep fp sid pname st len) rest

/-- `DataBits` (serial/data_bits.rs). -/
inductive DataBits where
  | five
  | six
  | seven
  | eight
deriving DecidableEq, Repr

/-- `DataBits::from_str` (serial/data_bits.rs lines 13-24). -/
def DataBits.from_str (s : String) : Except String DataBits :=
  match s with
  | "five" => Except.ok DataBits.five
  | "Five" => Except.ok DataBits.five
  | "six" => Except.ok DataBits.six
  | "Six" => Except.ok DataBits.six
  | "seven" => Except.ok DataBits.seven
  | "Seven" => Except.ok DataBits.seven
  | "eight" => Except.ok DataBits.eight
  | "Eight" => Except.ok DataBits.eight
  | _ => Except.error ("unknown data bits: " ++ s)

/-- `FlowControl` (serial/flow_control.rs). -/
inductive FlowControl where
  | hardware
  | software
  | none
deriving DecidableEq, Repr

/-- `FlowControl::from_str` (serial/flow_control.rs). -/
def FlowControl.from_str (s : String) : Except String FlowControl :=
  match s with
  | "hardware" => Except.ok FlowControl.hardware
  | "Hardware" => Except.ok FlowControl.hardware
  | "software" => Except.ok FlowControl.software
  | "Software" => Except.ok FlowControl.software
  | "none" => Except.ok FlowControl.none
  | "None" => Except.ok FlowControl.none
  | _ => Except.error ("unknown flow control: " ++ s)

/-- `Parity` (serial/parity.rs). -/
inductive Parity where
  | odd
  | even
  | none
deriving DecidableEq, Repr

/-- `Parity::from_str` (serial/parity.rs). -/
def Parity.from_str (s : String) : Except String Parity :=
  match s with
  | "odd" => Except.ok Parity.odd
  | "Odd" => Except.ok Parity.odd
  | "even" => Except.ok Parity.even
  | "Even" => Except.ok Parity.even
  | "none" => Except.ok Parity.none
  | "None" => Except.ok Parity.none
  | _ => Except.error ("unknown parity: " ++ s)

/-- `StopBits` (serial/stop_bits.rs). -/
inductive StopBits where
  | one
  | two
deriving DecidableEq, Repr

/-- `StopBits::from_str` (serial/stop_bits.rs). -/
def StopBits.from_str (s : String) : Except String StopBits :=
  match s with
  | "one" => Except.ok StopBits.one
  | "One" => Except.ok StopBits.one
  | "two" => Except.ok StopBits.two
  | "Two" => Except.ok StopBits.two
  | _ => Except.error ("unknown stop bits: " ++ s)

/-- `UsbPortInfo` (serial/usb_port_info.rs), the fields used by the
device fingerprint. -/
structure UsbPortInfo where
  vid : Nat
  pid : Nat
  serial_number : Option String
deriving DecidableEq, Repr

/-- `PortType` (serial/port_type.rs). -/
inductive PortType where
  | usbPort (usb : UsbPortInfo)
  | pciPort
  | bluetoothPort
  | unknown
deriving DecidableEq, Repr

/-- Uppercase hexadecimal digits of `n` (empty for 0). -/
def hexDigits : Nat → List Char
  | 0 => []
  | n + 1 =>
    hexDigits ((n + 1) / 16) ++ ["0123456789ABCDEF".toList.getD ((n + 1) % 16) '0']

/-- Rust `format("{:04X}", n)`: at least four uppercase hex digits,
zero-padded. -/
def hex4 (n : Nat) : String :=
  let ds := hexDigits n
  String.mk (List.replicate (4 - ds.length) '0' ++ ds)

/-- `generate_device_fingerprint` (storage/mod.rs lines 178-189). -/
def generate_device_fingerprint (port_name : String) (pt : PortType) : String :=
  match pt with
  | PortType.usbPort usb =>
    "usb:" ++ hex4 usb.vid ++ ":" ++ hex4 usb.pid ++ ":"
      ++ usb.serial_number.getD "unknown"
  | _ => "port:" ++ port_name

/-- `OpenedPortProfile` (state.rs). -/
structure OpenedPortProfile where
  baud_rate : Nat
  flow_control : FlowControl
  data_bits : DataBits
  parity : Parity
  stop_bits : StopBits
  carrier_detect : Bool
  clear_to_send : Bool
  data_set_ready : Bool
  ring_indicator : Bool
  timeout_ms : Nat
deriving DecidableEq, Repr

/-- `PortStatus` (state.rs). -/
inductive PortStatus where
  | opened (profile : OpenedPortProfile)
  | closed
deriving DecidableEq, Repr

/-- `PortInfo` (state.rs). -/
structure PortInfo where
  port_name : String
  port_type : PortType
  port_status : PortStatus
  bytes_read : Nat
  bytes_write : Nat
deriving DecidableEq, Repr

/-- `AppState` (state.rs): the port registry (a map modelled as an
association list) and the map of live session handles (modelled by the
set of port names holding one). -/
structure AppState where
  ports : List (String × PortInfo)
  port_handles : List String
deriving DecidableEq, Repr

/-- `HashMap::get` on the registry association list. -/
def assocFind (m : List (String × PortInfo)) (k : String) : Option PortInfo :=
  (m.find? (fun kv => kv.1 == k)).map (fun kv => kv.2)

/-- `HashMap::insert` on the registry association list: replace the
binding if the key is present, append it otherwise. -/
def assocInsert : List (String × PortInfo) → String → PortInfo →
    List (String × PortInfo)
  | [], k, v => [(k, v)]
  | kv :: rest, k, v =>
    if kv.1 == k then (k, v) :: rest else kv :: assocInsert rest k v

/-- `get_mut(..).port_status = st` on the registry: update the status of
the entry with the given key (keys are unique, so recursing into the tail
touches nothing else), do nothing if the key is absent. -/
def assocSetStatus : List (String × PortInfo) → String → PortStatus →
    List (String × PortInfo)
  | [], _, _ => []
  | kv :: rest, k, st =>
    if kv.1 == k then (kv.1, { kv.2 with port_status := st }) :: assocSetStatus rest k st
    else kv :: assocSetStatus rest k st

/-- The `PortInfo` row inserted for a newly discovered port
(update_ports.rs lines 21-30): status `Closed`, zeroed counters. -/
def mkDiscoveredPort (name : String) (pt : PortType) : PortInfo :=
  { port_name := name, port_type := pt, port_status := PortStatus.closed,
    bytes_read := 0, bytes_write := 0 }

/-- The for-loop of `update_available_ports`: `names` is the key list
captured before the loop; system ports whose name is in it are skipped,
the others are inserted with status `Closed`. -/
def mergePorts (names : List String) (sys : List (String × PortType))
    (acc : List (String × PortInfo)) : List (String × PortInfo) :=
  match sys with
  | [] => acc
  | p :: rest =>
    match names.contains p.1 with
    | true => mergePorts names rest acc
    | false => mergePorts names rest (assocInsert acc p.1 (mkDiscoveredPort p.1 p.2))

/-- `update_available_ports` (update_ports.rs): merge the system port
enumeration into the registry without touching existing entries. -/
def update_available_ports (sys : List (String × PortType))
    (ports : List (String × PortInfo)) : List (String × PortInfo) :=
  mergePorts (ports.map (fun kv => kv.1)) sys ports

/-- The string arguments of the `open_port` command (open_port.rs
lines 233-245). -/
structure OpenPortArgs where
  port_name : String
  baud_rate : Nat
  data_bits : String
  flow_control : String
  parity : String
  stop_bits : String
  data_terminal_ready : Bool
  timeout_ms : Nat
deriving DecidableEq, Repr

/-- The parameter-parsing cascade at the top of `open_port`
(open_port.rs lines 251-266), in source order. -/
def parse_open_params (a : OpenPortArgs) :
    Except String (DataBits × FlowControl × Parity × StopBits) := do
  let d ← DataBits.from_str a.data_bits
  let f ← FlowControl.from_str a.flow_control
  let p ← Parity.from_str a.parity
  let s ← StopBits.from_str a.stop_bits
  pure (d, f, p, s)

/-- External inputs consumed by one `open_port` call: the system port
enumeration (`tokio_serial::available_ports`), the OS result of
`SerialStream::open`, the result of emitting `port_opened`, and the
freshly minted UUID session id. -/
structure OpenEnv where
  availRes : Except String (List (String × PortType))
  osOpen : Except String Unit
  emitOpened : Except String Unit
  session_id : String
deriving Repr

/-- What one `open_port` call did: its returned value (`Ok session_id` or
an error string), the registry state it left behind, whether the OS-level
hardware open was attempted, and whether a session task was spawned. -/
structure OpenOutcome where
  result : Except String String
  state : AppState
  hw_open_attempted : Bool
  task_spawned : Bool
deriving Repr

/-- The `OpenedPortProfile` written on success (open_port.rs
lines 320-333): requested line parameters, all modem lines false. -/
def openedProfile (a : OpenPortArgs)
    (params : DataBits × FlowControl × Parity × StopBits) : OpenedPortProfile :=
  { baud_rate := a.baud_rate, data_bits := params.1,
    flow_control := params.2.1, parity := params.2.2.1,
    stop_bits := params.2.2.2,
    carrier_detect := false, clear_to_send := false,
    data_set_ready := false, ring_indicator := false,
    timeout_ms := a.timeout_ms }

/-- `open_port` (open_port.rs lines 233-336), composed with
`open_port_unchecked` (lines 196-230): parse the four parameter strings,
refresh the registry from the system enumeration, fail if the name is
unknown or a handle already exists, compute the fingerprint, open the
hardware, spawn the task, emit `port_opened`, then insert the handle and
flip the status to `Opened`. -/
def open_port (env : OpenEnv) (st : AppState) (a : OpenPortArgs) : OpenOutcome :=
  match parse_open_params a with
  | Except.error e =>
    { result := Except.error e, state := st,
      hw_open_attempted := false, task_spawned := false }
  | Except.ok params =>
    match env.availRes with
    | Except.error e =>
      { result := Except.error e, state := st,
        hw_open_attempted := false, task_spawned := false }
    | Except.ok sys =>
      let ports2 := update_available_ports sys st.ports
      let st2 : AppState := { st with ports := ports2 }
      match (ports2.map (fun kv => kv.1)).contains a.port_name with
      | false =>
        { result := Except.error ("no such port: " ++ a.port_name), state := st2,
          hw_open_attempted := false, task_spawned := false }
      | true =>
      match st2.port_handles.contains a.port_name with
      | true =>
        { result := Except.error (a.port_name ++ " already opened"), state := st2,
          hw_open_attempted := false, task_spawned := false }
      | false =>
        match assocFind ports2 a.port_name with
        | Option.none =>
          { result := Except.error ("port " ++ a.port_name ++ " not found"),
            state := st2, hw_open_attempted := false, task_spawned := false }
        | Option.some _info =>
          match env.osOpen with
          | Except.error e =>
            { result := Except.error e, state := st2,
              hw_open_attempted := true, task_spawned := false }
          | Except.ok _ =>
            match env.emitOpened with
            | Except.error e =>
              { result := Except.error e, state := st2,
                hw_open_attempted := true, task_spawned := true }
            | Except.ok _ =>
              let st3 : AppState :=
                { st2 with port_handles := st2.port_handles ++ [a.port_name] }
              let newStatus := PortStatus.opened (openedProfile a params)
              let st4 : AppState :=
                { st3 with ports := assocSetStatus st3.ports a.port_name newStatus }
              { result := Except.ok env.session_id, state := st4,
                hw_open_attempted := true, task_spawned := true }

/-- What one `close_port` call did: its returned value and the
notifications it emitted. -/
structure CloseOutcome where
  result : Except String Unit
  emitted : List AppEvent
deriving Repr

/-- `close_port` (close_port.rs): look up the handle (error if the port
is not open), send `Close` with an ack sender, wait for the ack, then
emit `port_closed` with the literal reason string `Active Close`.
`send_ok`, `ack_ok` and `emit_ok` are the outcomes of the three awaited
external steps. -/
def close_port (st : AppState) (port_name : String)
    (send_ok ack_ok emit_ok : Bool) : CloseOutcome :=
  if st.port_handles.contains port_name then
    if send_ok = false then
      { result := Except.error "send close command", emitted := [] }
    else if ack_ok = false then
      { result := Except.error "wait close command ack", emitted := [] }
    else if emit_ok = false then
      { result := Except.error "emit port closed event", emitted := [] }
    else
      { result := Except.ok (),
        emitted := [AppEvent.port_closed port_name "Active Close"] }
  else
    { result := Except.error ("port " ++ port_name ++ " not opened"), emitted := [] }

/-- The teardown tail of the write-notifier relay (open_port.rs
lines 175-189), reached when the session task exits and drops
`write_notifier_tx`: flip the port's status to `Closed`, then remove the
`PortHandles` entry.  It emits no notification. -/
def write_relay_finish (st : AppState) (port_name : String) :
    AppState × List AppEvent :=
  ({ ports := assocSetStatus st.ports port_name PortStatus.closed,
     port_handles := st.port_handles.filter (fun n => ! (n == port_name)) }, [])

/-- The `changed` test of the modem-status relay (open_port.rs
lines 114-117), comparing the registry profile's lines against a polled
snapshot. -/
def modemChanged (prof : OpenedPortProfile) (status : ModemStatus) : Bool :=
  (prof.carrier_detect != status.cd) || (prof.clear_to_send != status.cts)
    || (prof.data_set_ready != status.dsr) || (prof.ring_indicator != status.ring)

/-- The profile update performed by the modem-status relay when a line
changed (open_port.rs lines 119-122). -/
def applyStatus (prof : OpenedPortProfile) (status : ModemStatus) :
    OpenedPortProfile :=
  { prof with carrier_detect := status.cd, clear_to_send := status.cts,
              data_set_ready := status.dsr, ring_indicator := status.ring }

/-- One iteration of the modem-status relay loop (open_port.rs
lines 101-133) on an `Opened` profile: if a line changed, write the
polled snapshot into the profile and publish it (the returned list holds
the published snapshots); otherwise do nothing. -/
def statusRelayStep (prof : OpenedPortProfile) (status : ModemStatus) :
    OpenedPortProfile × List ModemStatus :=
  if modemChanged prof status then (applyStatus prof status, [status])
  else (prof, [])

/-- Run the modem-status relay over the snapshots received from the
session task's watch channel, collecting the published updates. -/
def statusRelayRun (prof : OpenedPortProfile) :
    List ModemStatus → OpenedPortProfile × List ModemStatus
  | [] => (prof, [])
  | st :: rest =>
    let r := statusRelayStep prof st
    let rr := statusRelayRun r.1 rest
    (rr.1, r.2 ++ rr.2)

/-- The status of a named port in the registry. -/
def portStatusOf (st : AppState) (name : String) : Option PortStatus :=
  (assocFind st.ports name).map (fun info => info.port_status)

/-- The atomic actions of the user-initiated close path, spread over the
three tasks involved: the session task sends the Close ack
(port_task.rs lines 131-133), exits its loop and releases the hardware
handle (`port.shutdown`, line 154), then drops `write_notifier_tx` when
its closure ends; `close_port` returns `Ok` after receiving the ack
(close_port.rs lines 35-56); the write-notifier relay, once its `recv`
returns `None`, flips the status to `Closed` and removes the handle
(open_port.rs lines 175-189). -/
inductive CloseEvent where
  | ackSend
  | closeReturn
  | portShutdown
  | notifierClosed
  | statusFlip
  | handleRemove
deriving DecidableEq, Fintype, Repr

/-- The happens-before edges of the close path, one per program-order or
channel-causality constraint in the source: the session task acks, then
shuts the port down, then (by returning from its closure) closes the
notifier channel; the relay observes the closed channel before flipping
the status, and flips the status before removing the handle;
`close_port` returns only after the ack was sent. -/
def closeBaseEdges : List (CloseEvent × CloseEvent) :=
  [(CloseEvent.ackSend, CloseEvent.portShutdown),
   (CloseEvent.portShutdown, CloseEvent.notifierClosed),
   (CloseEvent.notifierClosed, CloseEvent.statusFlip),
   (CloseEvent.statusFlip, CloseEvent.handleRemove),
   (CloseEvent.ackSend, CloseEvent.closeReturn)]

/-- An admissible schedule of the close path: every action occurs exactly
once and each happens-before edge is respected.  (Respecting the base
edges forces their transitive closure too, since list positions are
totally ordered.) -/
def closeAdmissible (t : List CloseEvent) : Prop :=
  (∀ e : CloseEvent, t.count e = 1)
    ∧ ∀ p ∈ closeBaseEdges, t.indexOf p.1 < t.indexOf p.2

/-- One concrete admissible schedule: `close_port` returns right after
the ack, before the hardware is released and the registry is updated. -/
def closeTrace0 : List CloseEvent :=
  [CloseEvent.ackSend, CloseEvent.closeReturn, CloseEvent.portShutdown,
   CloseEvent.notifierClosed, CloseEvent.statusFlip, CloseEvent.handleRemove]

instance (t : List CloseEvent) : Decidable (closeAdmissible t) := by
  unfold closeAdmissible; infer_instance

/-! ## Helper lemmas about the session-task loop -/

theorem runTask_append (p : String) (s : TaskState) (l1 l2 : List LoopInput) :
    runTask p s (l1 ++ l2) = runTask p (runTask p s l1) l2 := by
  induction l1 generalizing s with
  | nil => rfl
  | cons i rest ih => simp [runTask, ih]

theorem runTask_msgs (p : String) (msgs : List WritePortMessage) (s : TaskState)
    (h : s.done = false) :
    runTask p s (msgs.map msgInput) =
      { s with wire := s.wire ++ msgs.map (fun m => m.data),
               serviced := s.serviced ++ msgs.map (fun m => (WriteCmd.message m, true)),
               notifies := s.notifies ++ msgs.map (fun m => m.data.length) } := by
  induction msgs generalizing s with
  | nil => simp only [List.map_nil, List.append_nil]; rfl
  | cons m rest ih =>
    have hstep : taskStep p s (msgInput m) =
        { s with wire := s.wire ++ [m.data],
                 serviced := s.serviced ++ [(WriteCmd.message m, true)],
                 notifies := s.notifies ++ [m.data.length] } := by
      simp [taskStep, msgInput, h]
    simp only [List.map_cons, runTask, hstep]
    rw [ih _ (by simp [h])]
    simp

theorem runTask_ticks (p : String) (polls : List ModemStatus) (s : TaskState)
    (h : s.done = false) :
    runTask p s (polls.map LoopInput.tick) =
      { s with statusSends := s.statusSends ++ polls } := by
  induction polls generalizing s with
  | nil => simp only [List.map_nil, List.append_nil]; rfl
  | cons st rest ih =>
    have hstep : taskStep p s (LoopInput.tick st) =
        { s with statusSends := s.statusSends ++ [st] } := by
      simp [taskStep, h]
    simp only [List.map_cons, runTask, hstep]
    rw [ih _ (by simp [h])]
    simp

/-! ## C4 -/

/-- Claim C4: for every sequence of Write commands enqueued on one port's
command channel, the session task performs the full write of a command's
bytes within that command's loop iteration, so the payloads appear on the
wire (`port.write_all` calls) exactly in command-enqueue order, one
iteration per command. -/
theorem C4_write_ordering (p : String) (msgs : List WritePortMessage) :
    (runTask p initTaskState (msgs.map msgInput)).wire = msgs.map (fun m => m.data)
    ∧ (runTask p initTaskState (msgs.map msgInput)).serviced
        = msgs.map (fun m => (WriteCmd.message m, true)) := by
  rw [runTask_msgs p msgs initTaskState rfl]
  simp [initTaskState]

/-! ## C3 -/

/-- Claim C3: when the session task dequeues `Close` it sends the Close ack and
stops servicing the queue: for commands `[msgs..., Close, after...]` the
final task history services exactly the writes before the Close and the
Close itself (whose ack flag is honoured), and nothing from `after` is
ever serviced — no write, ack, notification or event for it exists. -/
theorem C3_close_terminates_queue (p : String) (msgs : List WritePortMessage)
    (ackClose : Bool) (after : List LoopInput) :
    runTask p initTaskState
        (msgs.map msgInput ++ LoopInput.cmd (some (WriteCmd.close, ackClose)) true :: after)
      = { events := [], wire := msgs.map (fun m => m.data),
          serviced := msgs.map (fun m => (WriteCmd.message m, true)) ++ [(WriteCmd.close, ackClose)],
          notifies := msgs.map (fun m => m.data.length),
          statusSends := [], done := true } := by
  rw [runTask_append, runTask_msgs p msgs initTaskState rfl]
  have hclose : taskStep p
      { initTaskState with
        wire := initTaskState.wire ++ msgs.map (fun m => m.data),
        serviced := initTaskState.serviced ++ msgs.map (fun m => (WriteCmd.message m, true)),
        notifies := initTaskState.notifies ++ msgs.map (fun m => m.data.length) }
      (LoopInput.cmd (some (WriteCmd.close, ackClose)) true)
      = { events := [], wire := msgs.map (fun m => m.data),
          serviced := msgs.map (fun m => (WriteCmd.message m, true)) ++ [(WriteCmd.close, ackClose)],
          notifies := msgs.map (fun m => m.data.length),
          statusSends := [], done := true } := by
    simp [taskStep, initTaskState]
  simp only [runTask, hclose]
  exact runTask_done p _ after rfl

/-! ## C1 -/

/-- Claim C1, counterexample: a failed hardware write terminates the session by
itself.  With a failing write of `[1, 2]` followed by a healthy write
command, the loop exits immediately after the failed write (and its ack):
the second command is never serviced, contradicting the claim that the
task continues servicing subsequent loop iterations and that only a read
failure terminates the session. -/
theorem C1_counterexample :
    (runTask "COM7" initTaskState
        [LoopInput.cmd (some (WriteCmd.message ⟨"m1", [1, 2]⟩, true)) false,
         LoopInput.cmd (some (WriteCmd.message ⟨"m2", [3]⟩, true)) true]).done = true
    ∧ (runTask "COM7" initTaskState
        [LoopInput.cmd (some (WriteCmd.message ⟨"m1", [1, 2]⟩, true)) false,
         LoopInput.cmd (some (WriteCmd.message ⟨"m2", [3]⟩, true)) true]).wire
        = [[1, 2]]
    ∧ (runTask "COM7" initTaskState
        [LoopInput.cmd (some (WriteCmd.message ⟨"m1", [1, 2]⟩, true)) false,
         LoopInput.cmd (some (WriteCmd.message ⟨"m2", [3]⟩, true)) true]).serviced.length
        = 1 := by
  refine ⟨rfl, rfl, rfl⟩

/-- Claim C1, amended: for every Write command whose hardware write fails, the
task still sends the acknowledgment and the write-length notification at
the ack boundary — but it then terminates the session loop: no later
queue entry is ever serviced.  (Write failure is fatal to the session,
like read failure; the spec's recoverable policy is not what the code
does.) -/
theorem C1_write_failure_acked_then_fatal (p : String) (s : TaskState)
    (m : WritePortMessage) (ack : Bool) (rest : List LoopInput)
    (h : s.done = false) :
    taskStep p s (LoopInput.cmd (some (WriteCmd.message m, ack)) false)
      = { s with wire := s.wire ++ [m.data],
                 serviced := s.serviced ++ [(WriteCmd.message m, ack)],
                 notifies := s.notifies ++ [m.data.length],
                 done := true }
    ∧ runTask p (taskStep p s (LoopInput.cmd (some (WriteCmd.message m, ack)) false)) rest
      = taskStep p s (LoopInput.cmd (some (WriteCmd.message m, ack)) false) := by
  have hstep : taskStep p s (LoopInput.cmd (some (WriteCmd.message m, ack)) false)
      = { s with wire := s.wire ++ [m.data],
                 serviced := s.serviced ++ [(WriteCmd.message m, ack)],
                 notifies := s.notifies ++ [m.data.length],
                 done := true } := by
    simp [taskStep, h]
  exact ⟨hstep, by rw [hstep]; exact runTask_done p _ rest rfl⟩

/-- Witness for C1's amended theorem at a concrete failing write. -/
theorem C1_write_failure_witness :
    taskStep "COM7" initTaskState
        (LoopInput.cmd (some (WriteCmd.message ⟨"m9", [7]⟩, true)) false)
      = { initTaskState with wire := [[7]],
                             serviced := [(WriteCmd.message ⟨"m9", [7]⟩, true)],
                             notifies := [1], done := true } := by
  have h := C1_write_failure_acked_then_fatal "COM7" initTaskState
    ⟨"m9", [7]⟩ true [] rfl
  simpa [initTaskState] using h.1

/-! ## Relay lemmas -/

theorem readRelayRun_spec (fp sid pname : String) (events : List SerialEvent)
    (st : ReadRelayState) :
    (readRelayRun fp sid pname st events).audits
        = st.audits ++ (dataPayloads events).map (rxRecord fp sid pname)
    ∧ (readRelayRun fp sid pname st events).emitted.filter AppEvent.isPortClosed
        = st.emitted.filter AppEvent.isPortClosed := by
  induction events generalizing st with
  | nil => simp [readRelayRun, dataPayloads]
  | cons ev rest ih =>
    cases ev with
    | message m =>
      have h := ih (readRelayStep fp sid pname st (SerialEvent.message m))
      simp only [readRelayRun] at h ⊢
      refine ⟨?_, ?_⟩
      · rw [h.1]; simp [readRelayStep, dataPayloads]
      · rw [h.2]; simp [readRelayStep, AppEvent.isPortClosed]
    | error e =>
      have h := ih (readRelayStep fp sid pname st (SerialEvent.error e))
      simp only [readRelayRun] at h ⊢
      refine ⟨?_, ?_⟩
      · rw [h.1]; simp [readRelayStep, dataPayloads]
      · rw [h.2]; simp [readRelayStep, AppEvent.isPortClosed]

theorem writeRelayRun_spec (fp sid pname : String) (lens : List Nat)
    (st : WriteRelayState) :
    (writeRelayRun fp sid pname st lens).audits
        = st.audits ++ lens.map (txRecord fp sid pname)
    ∧ (writeRelayRun fp sid pname st lens).bytesWrite
        = st.bytesWrite + lens.sum := by
  induction lens generalizing st with
  | nil => simp [writeRelayRun]
  | cons len rest ih =>
    have h := ih (writeRelayStep fp sid pname st len)
    simp only [writeRelayRun] at h ⊢
    refine ⟨?_, ?_⟩
    · rw [h.1]; simp [writeRelayStep]
    · rw [h.2]; simp [writeRelayStep]; ring

/-! ## C9 -/

/-- Claim C9: every inbound `Data` event of payload `P` received during session
`S` yields exactly one audit row, with direction `RX`, session id `S` and
data `P`: the rows inserted by the read relay are precisely the `Data`
payloads of the event stream, in order — none dropped, none duplicated. -/
theorem C9_rx_audit_fidelity (fp sid pname : String) (events : List SerialEvent) :
    (readRelayRun fp sid pname initReadRelay events).audits
      = (dataPayloads events).map (rxRecord fp sid pname) := by
  have h := (readRelayRun_spec fp sid pname events initReadRelay).1
  simpa [initReadRelay] using h

/-! ## C8 -/

/-- Claim C8, counterexample: a write of the two raw bytes `[1, 2]` produces
exactly one TX audit row, but its payload is the placeholder text
`<2 bytes written>` (the write-notifier channel only carries the length),
not the raw bytes that were written. -/
theorem C8_counterexample :
    (writeRelayRun "fp" "sid" "COM7" initWriteRelay
        (runTask "COM7" initTaskState [msgInput ⟨"m1", [1, 2]⟩]).notifies).audits
      = [txRecord "fp" "sid" "COM7" 2]
    ∧ (txRecord "fp" "sid" "COM7" 2).direction = "TX"
    ∧ decide ((txRecord "fp" "sid" "COM7" 2).data = [1, 2]) = false := by
  refine ⟨by rfl, by rfl, by decide⟩

/-- Claim C8, amended: every outbound transfer is persisted as exactly one
append-only TX audit row keyed by fingerprint and session — but its
payload is the placeholder text `<N bytes written>`, where `N` is the
transfer's byte count, not the raw bytes (the notifier channel carries
only the length). -/
theorem C8_tx_audit_placeholder (fp sid pname : String)
    (msgs : List WritePortMessage) :
    (writeRelayRun fp sid pname initWriteRelay
        (runTask pname initTaskState (msgs.map msgInput)).notifies).audits
      = msgs.map (fun m => txRecord fp sid pname m.data.length)
    ∧ ∀ m : Nat, (txRecord fp sid pname m).data
        = charBytes ("<" ++ toString m ++ " bytes written>") := by
  constructor
  · have hnot : (runTask pname initTaskState (msgs.map msgInput)).notifies
        = msgs.map (fun m => m.data.length) := by
      rw [runTask_msgs pname msgs initTaskState rfl]; simp [initTaskState]
    rw [hnot]
    rw [(writeRelayRun_spec fp sid pname (msgs.map (fun m => m.data.length))
      initWriteRelay).1]
    simp [initWriteRelay, List.map_map, Function.comp]
  · intro m; rfl

/-! ## C2 -/

/-- A registry state with `COM7` discovered and currently open. -/
def stOpen : AppState :=
  { ports := [("COM7", mkDiscoveredPort "COM7" PortType.unknown)],
    port_handles := ["COM7"] }

/-- Claim C2, counterexample: a user-initiated close emits `port_closed` with
the literal reason string `Active Close` (not `UserRequested`), and an
unsolicited exit emits no `port_closed` notification at all: a hardware
read error yields only a `port_error` event from the read relay, and the
write relay's teardown (status flip + handle removal) emits nothing. -/
theorem C2_counterexample :
    (close_port stOpen "COM7" true true true).emitted
        = [AppEvent.port_closed "COM7" "Active Close"]
    ∧ decide ((close_port stOpen "COM7" true true true).emitted
        = [AppEvent.port_closed "COM7" "UserRequested"]) = false
    ∧ (readRelayRun "fp" "sid" "COM7" initReadRelay
        [SerialEvent.error "simulated read error"]).emitted
        = [AppEvent.port_error "simulated read error"]
    ∧ (write_relay_finish stOpen "COM7").2 = [] := by
  refine ⟨by decide, by decide, by decide, by decide⟩

theorem assocFind_setStatus_self (m : List (String × PortInfo)) (k : String)
    (stt : PortStatus) :
    assocFind (assocSetStatus m k stt) k
      = (assocFind m k).map (fun info => { info with port_status := stt }) := by
  induction m with
  | nil => rfl
  | cons kv rest ih =>
    cases hbeq : (kv.1 == k) with
    | true => simp [assocSetStatus, assocFind, List.find?, hbeq]
    | false =>
      simp only [assocSetStatus, hbeq, Bool.false_eq_true, if_false]
      simp only [assocFind, List.find?, hbeq] at ih ⊢
      exact ih

/-- Claim C2, amended: on every session exit the registry ends consistent, but
the two exit cases are signalled asymmetrically: a user-initiated
`close_port` (with the task still alive) returns `Ok` and emits exactly
one `port_closed` notification whose reason is the literal string
`Active Close`; an unsolicited exit emits no `port_closed` notification
at all — the read relay only ever emits `port_read`/`port_error`, and the
write relay's teardown flips the port status to `Closed` and removes the
`SessionHandle` without emitting anything.  Callers can thus tell the
cases apart only by the presence or absence of `port_closed`. -/
theorem C2_close_notifications (st : AppState) (name fp sid pname : String)
    (events : List SerialEvent) (rst : ReadRelayState)
    (h : st.port_handles.contains name = true)
    (hnone : rst.emitted.filter AppEvent.isPortClosed = []) :
    (close_port st name true true true).emitted
        = [AppEvent.port_closed name "Active Close"]
    ∧ (close_port st name true true true).result = Except.ok ()
    ∧ (readRelayRun fp sid pname rst events).emitted.filter AppEvent.isPortClosed = []
    ∧ (write_relay_finish st name).2 = []
    ∧ (write_relay_finish st name).1.port_handles
        = st.port_handles.filter (fun n => ! (n == name))
    ∧ portStatusOf (write_relay_finish st name).1 name
        = (portStatusOf st name).map (fun _ => PortStatus.closed) := by
  have hmem : name ∈ st.port_handles := by simpa using h
  refine ⟨?_, ?_, ?_, rfl, rfl, ?_⟩
  · simp [close_port, hmem]
  · simp [close_port, hmem]
  · rw [(readRelayRun_spec fp sid pname events rst).2, hnone]
  · simp only [write_relay_finish, portStatusOf]
    rw [assocFind_setStatus_self]
    cases assocFind st.ports name <;> rfl

/-! ## C5 -/

theorem statusRelayRun_append (prof : OpenedPortProfile)
    (l1 l2 : List ModemStatus) :
    statusRelayRun prof (l1 ++ l2)
      = ((statusRelayRun (statusRelayRun prof l1).1 l2).1,
         (statusRelayRun prof l1).2 ++ (statusRelayRun (statusRelayRun prof l1).1 l2).2) := by
  induction l1 generalizing prof with
  | nil => simp [statusRelayRun]
  | cons st rest ih =>
    simp only [List.cons_append, statusRelayRun, List.append_eq]
    rw [ih]
    simp [List.append_assoc]

theorem statusRelayRun_unchanged (prof : OpenedPortProfile) (s : ModemStatus)
    (n : Nat) (h : modemChanged prof s = false) :
    statusRelayRun prof (List.replicate n s) = (prof, []) := by
  induction n with
  | zero => rfl
  | succ k ih =>
    have hstep : statusRelayStep prof s = (prof, []) := by
      simp [statusRelayStep, h]
    simp [List.replicate_succ, statusRelayRun, hstep, ih]

theorem modemChanged_applyStatus (prof : OpenedPortProfile) (s : ModemStatus) :
    modemChanged (applyStatus prof s) s = false := by
  simp [modemChanged, applyStatus]

/-- Claim C5: status diffing through the poll pipeline.  The session task
forwards every polled snapshot on the watch channel; the status relay
compares each snapshot against the last applied profile and publishes a
new snapshot only when a line changed.  Hence `n` identical polls after a
matching snapshot publish nothing, and a single line flip followed by any
number of repeats of the new level publishes exactly one update carrying
the new snapshot. -/
theorem C5_status_diffing (p : String) (prof : OpenedPortProfile)
    (s s' : ModemStatus) (n m : Nat)
    (hs : modemChanged prof s = false) (hs' : modemChanged prof s' = true) :
    (runTask p initTaskState ((List.replicate n s).map LoopInput.tick)).statusSends
        = List.replicate n s
    ∧ (statusRelayRun prof (List.replicate n s)).2 = []
    ∧ (statusRelayRun prof (List.replicate n s ++ s' :: List.replicate m s')).2
        = [s'] := by
  refine ⟨?_, ?_, ?_⟩
  · rw [runTask_ticks p (List.replicate n s) initTaskState rfl]
    simp [initTaskState]
  · rw [statusRelayRun_unchanged prof s n hs]
  · rw [statusRelayRun_append, statusRelayRun_unchanged prof s n hs]
    have hstep : statusRelayStep prof s' = (applyStatus prof s', [s']) := by
      simp [statusRelayStep, hs']
    simp only [statusRelayRun, hstep,
      statusRelayRun_unchanged (applyStatus prof s') s' m
        (modemChanged_applyStatus prof s')]
    simp

/-- Witness for C5 on a concrete flip of the CTS line. -/
theorem C5_status_diffing_witness :
    (statusRelayRun (openedProfile ⟨"COM7", 9600, "eight", "none", "none", "one", true, 100⟩
          (DataBits.eight, FlowControl.none, Parity.none, StopBits.one))
        (List.replicate 3 ⟨false, false, false, false⟩
          ++ (⟨true, false, false, false⟩ : ModemStatus)
            :: List.replicate 2 ⟨true, false, false, false⟩)).2
      = [⟨true, false, false, false⟩] := by
  have h := C5_status_diffing "COM7"
    (openedProfile ⟨"COM7", 9600, "eight", "none", "none", "one", true, 100⟩
      (DataBits.eight, FlowControl.none, Parity.none, StopBits.one))
    ⟨false, false, false, false⟩ ⟨true, false, false, false⟩ 3 2
    (by decide) (by decide)
  exact h.2.2

/-! ## C6 -/

/-- Claim C6: read completions in the Running loop.  A read of `n > 0` bytes
makes the task emit a `Data` event containing exactly those bytes and
keep running, and makes the read relay emit `port_read`, insert the RX
audit row and bump `bytes_read` by `n`; a read of `0` bytes stops the
loop without any `Error` event; a read error appends exactly an `Error`
event and stops the loop. -/
theorem C6_read_handling (p fp sid : String) (s : TaskState)
    (rst : ReadRelayState) (b : Nat) (bs : List Nat) (e : String)
    (h : s.done = false) :
    taskStep p s (LoopInput.read (Except.ok (b :: bs)))
        = { s with events := s.events ++ [SerialEvent.message ⟨p, b :: bs⟩] }
    ∧ (taskStep p s (LoopInput.read (Except.ok (b :: bs)))).done = false
    ∧ readRelayStep fp sid p rst (SerialEvent.message ⟨p, b :: bs⟩)
        = { emitted := rst.emitted ++ [AppEvent.port_read ⟨p, b :: bs⟩],
            audits := rst.audits ++ [rxRecord fp sid p (b :: bs)],
            bytesRead := rst.bytesRead + (b :: bs).length }
    ∧ taskStep p s (LoopInput.read (Except.ok [])) = { s with done := true }
    ∧ taskStep p s (LoopInput.read (Except.error e))
        = { s with events := s.events ++ [SerialEvent.error e], done := true } := by
  refine ⟨?_, ?_, rfl, ?_, ?_⟩
  · simp [taskStep, h]
  · simp [taskStep, h]
  · simp [taskStep, h]
  · simp [taskStep, h]

/-- Witness for C6 at a concrete two-byte read. -/
theorem C6_read_handling_witness :
    taskStep "COM7" initTaskState (LoopInput.read (Except.ok [5, 6]))
        = { initTaskState with events := [SerialEvent.message ⟨"COM7", [5, 6]⟩] }
    ∧ taskStep "COM7" initTaskState (LoopInput.read (Except.error "io"))
        = { initTaskState with events := [SerialEvent.error "io"], done := true } := by
  have h := C6_read_handling "COM7" "fp" "sid" initTaskState initReadRelay
    5 [6] "io" rfl
  exact ⟨by simpa [initTaskState] using h.1, by simpa [initTaskState] using h.2.2.2.2⟩

/-- Witness for C2's amended theorem on a concrete open registry. -/
theorem C2_close_notifications_witness :
    (close_port stOpen "COM7" true true true).emitted
        = [AppEvent.port_closed "COM7" "Active Close"]
    ∧ portStatusOf (write_relay_finish stOpen "COM7").1 "COM7"
        = some PortStatus.closed := by
  have h := C2_close_notifications stOpen "COM7" "fp" "sid" "COM7"
    [] initReadRelay (by decide) (by decide)
  refine ⟨h.1, ?_⟩
  have h6 := h.2.2.2.2.2
  rw [h6]; decide

/-! ## C7 -/

theorem assocFind_insert_self (m : List (String × PortInfo)) (k : String)
    (v : PortInfo) : assocFind (assocInsert m k v) k = some v := by
  induction m with
  | nil => simp [assocInsert, assocFind, List.find?]
  | cons kv rest ih =>
    cases hbeq : (kv.1 == k) with
    | true => simp [assocInsert, hbeq, assocFind, List.find?]
    | false =>
      simp only [assocInsert, hbeq, Bool.false_eq_true, if_false]
      simp only [assocFind, List.find?, hbeq] at ih ⊢
      exact ih

theorem assocFind_insert_ne (m : List (String × PortInfo)) (k k' : String)
    (v : PortInfo) (h : (k == k') = false) :
    assocFind (assocInsert m k v) k' = assocFind m k' := by
  induction m with
  | nil => simp [assocInsert, assocFind, List.find?, h]
  | cons kv rest ih =>
    cases hbeq : (kv.1 == k) with
    | true =>
      have hk : kv.1 = k := by simpa using hbeq
      have hkv : (kv.1 == k') = false := by rw [hk]; exact h
      simp [assocInsert, hbeq, assocFind, List.find?, h, hkv]
    | false =>
      simp only [assocInsert, hbeq, Bool.false_eq_true, if_false]
      cases hkv : (kv.1 == k') with
      | true => simp [assocFind, List.find?, hkv]
      | false =>
        simp only [assocFind, List.find?, hkv] at ih ⊢
        exact ih

theorem assocFind_none_of_not_contains (m : List (String × PortInfo))
    (k : String) (h : (m.map (fun kv => kv.1)).contains k = false) :
    assocFind m k = none := by
  induction m with
  | nil => rfl
  | cons kv rest ih =>
    simp only [List.map_cons, List.contains_cons, Bool.or_eq_false_iff] at h
    have hbeq : (kv.1 == k) = false := by
      rw [beq_eq_false_iff_ne] at h ⊢
      exact fun hh => h.1 hh.symm
    simp only [assocFind, List.find?, hbeq]
    exact ih h.2

theorem assocFind_mergePorts (names : List String)
    (sys : List (String × PortType)) (acc : List (String × PortInfo))
    (name : String) :
    assocFind (mergePorts names sys acc) name = assocFind acc name
    ∨ (names.contains name = false
       ∧ ∃ pt, assocFind (mergePorts names sys acc) name
           = some (mkDiscoveredPort name pt)) := by
  induction sys generalizing acc with
  | nil => left; rfl
  | cons p rest ih =>
    cases hc : names.contains p.1 with
    | true =>
      have hstep : mergePorts names (p :: rest) acc = mergePorts names rest acc := by
        simp only [mergePorts]; rw [hc]
      rw [hstep]; exact ih acc
    | false =>
      have hstep : mergePorts names (p :: rest) acc
          = mergePorts names rest (assocInsert acc p.1 (mkDiscoveredPort p.1 p.2)) := by
        simp only [mergePorts]; rw [hc]
      rw [hstep]
      cases hbeq : (p.1 == name) with
      | true =>
        have hp : p.1 = name := by simpa using hbeq
        rcases ih (assocInsert acc p.1 (mkDiscoveredPort p.1 p.2)) with h | ⟨hn, pt, hfind⟩
        · right
          refine ⟨by rw [← hp]; exact hc, p.2, ?_⟩
          rw [h, hp, assocFind_insert_self]
        · exact Or.inr ⟨hn, pt, hfind⟩
      | false =>
        rcases ih (assocInsert acc p.1 (mkDiscoveredPort p.1 p.2)) with h | hr
        · left; rw [h, assocFind_insert_ne _ _ _ _ hbeq]
        · exact Or.inr hr

theorem portStatus_after_update (sys : List (String × PortType))
    (st : AppState) (name : String) :
    portStatusOf { st with ports := update_available_ports sys st.ports } name
        = portStatusOf st name
    ∨ (portStatusOf st name = none
       ∧ portStatusOf { st with ports := update_available_ports sys st.ports } name
           = some PortStatus.closed) := by
  simp only [portStatusOf, update_available_ports]
  rcases assocFind_mergePorts (st.ports.map (fun kv => kv.1)) sys st.ports name
    with h | ⟨hn, pt, hfind⟩
  · left; rw [h]
  · right
    refine ⟨?_, ?_⟩
    · rw [assocFind_none_of_not_contains st.ports name hn]; rfl
    · rw [hfind]; rfl

/-- Claim C7: `open_port` rejects invalid data-bits/parity/stop-bits/flow-control
tokens synchronously, before any hardware or task action and with the
registry untouched; it fails when a live SessionHandle already exists for
the name and when the name is absent from the registry after discovery;
and on every failure path it performs no partial registry mutation for
the port: the handle map is unchanged and the port's status is never
flipped to `Opened` (it is at most freshly discovered as `Closed`). -/
theorem C7_open_port_atomicity (env : OpenEnv) (st : AppState) (a : OpenPortArgs) :
    (∀ e, parse_open_params a = Except.error e →
      open_port env st a
        = { result := Except.error e, state := st,
            hw_open_attempted := false, task_spawned := false })
    ∧ (st.port_handles.contains a.port_name = true →
        ∃ e, (open_port env st a).result = Except.error e)
    ∧ (∀ sys, env.availRes = Except.ok sys →
        ((update_available_ports sys st.ports).map (fun kv => kv.1)).contains
            a.port_name = false →
        ∃ e, (open_port env st a).result = Except.error e)
    ∧ (∀ e, (open_port env st a).result = Except.error e →
        (open_port env st a).state.port_handles = st.port_handles
        ∧ (portStatusOf (open_port env st a).state a.port_name
              = portStatusOf st a.port_name
           ∨ (portStatusOf st a.port_name = none
              ∧ portStatusOf (open_port env st a).state a.port_name
                  = some PortStatus.closed))) := by
  refine ⟨?_, ?_, ?_, ?_⟩
  · intro e he
    simp only [open_port, he]
  · intro hh
    cases hp : parse_open_params a with
    | error e => exact ⟨e, by simp only [open_port, hp]⟩
    | ok params =>
      cases ha : env.availRes with
      | error e => exact ⟨e, by simp only [open_port, hp, ha]⟩
      | ok sys =>
        by_cases hc : ((update_available_ports sys st.ports).map (fun kv => kv.1)).contains
            a.port_name = false
        · exact ⟨"no such port: " ++ a.port_name, by simp only [open_port, hp, ha, hc]⟩
        · have hc2 : ((update_available_ports sys st.ports).map (fun kv => kv.1)).contains
              a.port_name = true := by
            revert hc
            cases ((update_available_ports sys st.ports).map (fun kv => kv.1)).contains
              a.port_name <;> simp
          exact ⟨a.port_name ++ " already opened", by simp only [open_port, hp, ha, hc2, hh]⟩
  · intro sys hsys hcont
    cases hp : parse_open_params a with
    | error e => exact ⟨e, by simp only [open_port, hp]⟩
    | ok params =>
      exact ⟨"no such port: " ++ a.port_name, by simp only [open_port, hp, hsys, hcont]⟩
  · intro e he
    cases hp : parse_open_params a with
    | error e0 =>
      have heq : open_port env st a
          = { result := Except.error e0, state := st,
              hw_open_attempted := false, task_spawned := false } := by
        simp only [open_port, hp]
      rw [heq]
      exact ⟨rfl, Or.inl rfl⟩
    | ok params =>
      cases ha : env.availRes with
      | error e1 =>
        have heq : open_port env st a
            = { result := Except.error e1, state := st,
                hw_open_attempted := false, task_spawned := false } := by
          simp only [open_port, hp, ha]
        rw [heq]
        exact ⟨rfl, Or.inl rfl⟩
      | ok sys =>
        by_cases hc : ((update_available_ports sys st.ports).map (fun kv => kv.1)).contains
            a.port_name = false
        · have heq : open_port env st a
              = { result := Except.error ("no such port: " ++ a.port_name),
                  state := { st with ports := update_available_ports sys st.ports },
                  hw_open_attempted := false, task_spawned := false } := by
            simp only [open_port, hp, ha, hc]
          rw [heq]
          exact ⟨rfl, portStatus_after_update sys st a.port_name⟩
        · have hc2 : ((update_available_ports sys st.ports).map (fun kv => kv.1)).contains
              a.port_name = true := by
            revert hc
            cases ((update_available_ports sys st.ports).map (fun kv => kv.1)).contains
              a.port_name <;> simp
          by_cases hh : st.port_handles.contains a.port_name = true
          · have heq : open_port env st a
                = { result := Except.error (a.port_name ++ " already opened"),
                    state := { st with ports := update_available_ports sys st.ports },
                    hw_open_attempted := false, task_spawned := false } := by
              simp only [open_port, hp, ha, hc2, hh]
            rw [heq]
            exact ⟨rfl, portStatus_after_update sys st a.port_name⟩
          · have hh2 : st.port_handles.contains a.port_name = false := by
              revert hh
              cases st.port_handles.contains a.port_name <;> simp
            cases hfind : assocFind (update_available_ports sys st.ports) a.port_name with
            | none =>
              have heq : open_port env st a
                  = { result := Except.error ("port " ++ a.port_name ++ " not found"),
                      state := { st with ports := update_available_ports sys st.ports },
                      hw_open_attempted := false, task_spawned := false } := by
                simp only [open_port, hp, ha, hc2, hh2, hfind]
              rw [heq]
              exact ⟨rfl, portStatus_after_update sys st a.port_name⟩
            | some info =>
              cases ho : env.osOpen with
              | error e2 =>
                have heq : open_port env st a
                    = { result := Except.error e2,
                        state := { st with ports := update_available_ports sys st.ports },
                        hw_open_attempted := true, task_spawned := false } := by
                  simp only [open_port, hp, ha, hc2, hh2, hfind, ho]
                rw [heq]
                exact ⟨rfl, portStatus_after_update sys st a.port_name⟩
              | ok u =>
                cases hemit : env.emitOpened with
                | error e3 =>
                  have heq : open_port env st a
                      = { result := Except.error e3,
                          state := { st with ports := update_available_ports sys st.ports },
                          hw_open_attempted := true, task_spawned := true } := by
                    simp only [open_port, hp, ha, hc2, hh2, hfind, ho, hemit]
                  rw [heq]
                  exact ⟨rfl, portStatus_after_update sys st a.port_name⟩
                | ok u2 =>
                  exfalso
                  have hok : (open_port env st a).result = Except.ok env.session_id := by
                    simp only [open_port, hp, ha, hc2, hh2, hfind, ho, hemit]
                  rw [hok] at he
                  cases he

/-- Witness for C7 at a concrete invalid data-bits token. -/
theorem C7_open_port_atomicity_witness :
    open_port ⟨Except.ok [], Except.ok (), Except.ok (), "sess"⟩
        { ports := [], port_handles := [] }
        ⟨"COM9", 9600, "bogus", "none", "none", "one", true, 100⟩
      = { result := Except.error ("unknown data bits: " ++ "bogus"),
          state := { ports := [], port_handles := [] },
          hw_open_attempted := false, task_spawned := false } := by
  exact (C7_open_port_atomicity ⟨Except.ok [], Except.ok (), Except.ok (), "sess"⟩
      { ports := [], port_handles := [] }
      ⟨"COM9", 9600, "bogus", "none", "none", "one", true, 100⟩).1
    ("unknown data bits: " ++ "bogus") rfl

/-! ## C10 -/

/-- Claim C10: in every admissible schedule of the user-initiated close path,
the Close acknowledgment (which gates `close_port`'s successful return)
happens before the session task releases the hardware handle and before
the relay flips the port status to `Closed` and removes the
SessionHandle (in that order); and there is an admissible schedule in
which `close_port` has already returned while the registry still shows
the port `Opened` with its handle present (neither flip nor removal has
occurred yet). -/
theorem C10_ack_before_teardown :
    (∀ t : List CloseEvent, closeAdmissible t →
        t.indexOf CloseEvent.ackSend < t.indexOf CloseEvent.portShutdown
      ∧ t.indexOf CloseEvent.ackSend < t.indexOf CloseEvent.statusFlip
      ∧ t.indexOf CloseEvent.ackSend < t.indexOf CloseEvent.handleRemove
      ∧ t.indexOf CloseEvent.statusFlip < t.indexOf CloseEvent.handleRemove)
    ∧ (∃ t : List CloseEvent, closeAdmissible t
        ∧ (t.take 2).getLast? = some CloseEvent.closeReturn
        ∧ CloseEvent.statusFlip ∉ t.take 2
        ∧ CloseEvent.handleRemove ∉ t.take 2) := by
  constructor
  · intro t ht
    obtain ⟨-, hedges⟩ := ht
    have h1 := hedges (CloseEvent.ackSend, CloseEvent.portShutdown) (by decide)
    have h2 := hedges (CloseEvent.portShutdown, CloseEvent.notifierClosed) (by decide)
    have h3 := hedges (CloseEvent.notifierClosed, CloseEvent.statusFlip) (by decide)
    have h4 := hedges (CloseEvent.statusFlip, CloseEvent.handleRemove) (by decide)
    exact ⟨h1, lt_trans (lt_trans h1 h2) h3,
      lt_trans (lt_trans (lt_trans h1 h2) h3) h4, h4⟩
  · exact ⟨closeTrace0, by decide, by decide, by decide, by decide⟩

/-- Witness for C10's universally quantified part at the concrete
schedule `closeTrace0`. -/
theorem C10_ack_before_teardown_witness :
    closeAdmissible closeTrace0
    ∧ closeTrace0.indexOf CloseEvent.ackSend
        < closeTrace0.indexOf CloseEvent.statusFlip :=
  ⟨by decide, (C10_ack_before_teardown.1 closeTrace0 (by decide)).2.1⟩

end SerialMgr
